import Mathlib

/-!
Shallow embedding of the core of the `inventory-anomaly-detector` repository
(pandas/sklearn inventory pipeline), together with proofs about the claims of
its specification.

Modelling conventions:
* a pandas cell that may be NaN is an `Option ℚ` (`none` = NaN);
* a dataframe row is an association list from column name to cell;
* a fitted sklearn `IsolationForest` is abstracted as a pair of per-row
  functions `score_samples` and `predict` (sklearn applies them row-wise);
* a Python function that can `raise` is an `Except String` value.
-/

/-- A nullable numeric cell (pandas float cell; `none` models NaN). -/
abbrev Cell := Option ℚ

/-- A dataframe row: column name ↦ cell.  A lookup of an absent column yields
`none`; column presence is tracked separately on the frame. -/
abbrev DRow := List (String × Cell)

/-- Cell of column `c` in row `r` (NaN when the pair is absent). -/
def DRow.get (r : DRow) (c : String) : Cell :=
  match r.find? (fun p => p.1 = c) with
  | some p => p.2
  | none => none

/-- A dataframe: its column names and its rows. -/
structure DataFrame where
  columns : List String
  rows : List DRow
deriving Repr, DecidableEq

/-- Abstraction of a fitted sklearn `IsolationForest`: its two row-wise
scoring functions.  `score_samples` is the raw score (higher = more normal);
`predict` returns `-1` for outliers and `1` for inliers. -/
structure IsoForest where
  score_samples : List ℚ → ℚ
  predict : List ℚ → Int

/-- `df[feature_columns].values` for one row: the cells of the feature
columns, in order. -/
def featureVector (fc : List String) (r : DRow) : List Cell :=
  fc.map (fun c => r.get c)

/-- `~np.isnan(X).any(axis=1)` for one row: all feature cells are non-NaN. -/
def validRow (fc : List String) (r : DRow) : Bool :=
  (featureVector fc r).all (fun o => o.isSome)

/-- The numeric feature vector of a row, with NaN read as `0` (only ever used
on rows that passed `validRow`). -/
def featureVals (fc : List String) (r : DRow) : List ℚ :=
  (featureVector fc r).map (fun o => o.getD 0)

/-- `[col for col in feature_columns if col not in df.columns]`
(anomalies.py, lines 37 and 94). -/
def missingCols (fc : List String) (df : DataFrame) : List String :=
  fc.filter (fun c => !(df.columns.contains c))

/-- The rows whose feature cells are all non-NaN (the `mask_valid` rows). -/
def validRows (fc : List String) (df : DataFrame) : List DRow :=
  df.rows.filter (fun r => validRow fc r)

/-- Write the entries of `vals` back at the `true` positions of `mask`, the
default at `false` positions — the semantics of
`df_result.loc[mask_valid, col] = values` after `col` was initialised to the
default. -/
def scatter (mask : List Bool) (vals : List α) (dflt : α) : List α :=
  match mask, vals with
  | [], _ => []
  | false :: ms, vs => dflt :: scatter ms vs dflt
  | true :: ms, [] => dflt :: scatter ms [] dflt
  | true :: ms, v :: vs => v :: scatter ms vs dflt

/-- Result of `detect_anomalies`: the input frame (the untouched copy) plus
the two new columns, positionally aligned with `base.rows`. -/
structure ScoredFrame where
  base : DataFrame
  anomaly_score : List Cell
  is_anomaly : List Bool
deriving Repr, DecidableEq

/-- Embedding of `detect_anomalies` (src/src/anomalies.py, lines 75–131):
check the feature columns exist, build the valid-row mask, score the valid
rows with the model, negate the raw scores, and scatter score/flag back over
the mask, leaving NaN/False on invalid rows. -/
def detect_anomalies (model : IsoForest) (df : DataFrame) (fc : List String) :
    Except String ScoredFrame :=
  if missingCols fc df ≠ [] then
    .error "Colunas nao encontradas"
  else
    let X := df.rows.map (featureVector fc)
    let maskValid := X.map (fun v => v.all (fun o => o.isSome))
    let XClean := (X.filter (fun v => v.all (fun o => o.isSome))).map
      (fun v => v.map (fun o => o.getD 0))
    if XClean.length = 0 then
      .error "Nao ha dados validos para deteccao de anomalias"
    else
      let predictions := XClean.map model.predict
      let scores := XClean.map model.score_samples
      let anomaly_scores := scores.map (fun s => -s)
      .ok { base := df
            anomaly_score := scatter maskValid (anomaly_scores.map some) none
            is_anomaly := scatter maskValid (predictions.map (fun p => p == -1)) false }

/-- Default contamination from `ISOLATION_FOREST_CONFIG` (src/src/config.py). -/
def defaultContamination : ℚ := 1/10

/-- Embedding of `train_isolation_forest` (src/src/anomalies.py, lines
16–72).  The sklearn fitting procedure itself is abstracted as the argument
`fit`, mapping (fit matrix, contamination, random_state, n_estimators) to a
fitted model; the function checks the columns, drops NaN rows, resolves the
default contamination and fits on the clean matrix. -/
def train_isolation_forest (fit : List (List ℚ) → ℚ → Int → Int → IsoForest)
    (df : DataFrame) (feature_columns : List String) (contamination : Option ℚ)
    (random_state : Int := 42) (n_estimators : Int := 100) :
    Except String IsoForest :=
  if missingCols feature_columns df ≠ [] then
    .error "Colunas nao encontradas"
  else
    let X := df.rows.map (featureVector feature_columns)
    let XClean := (X.filter (fun v => v.all (fun o => o.isSome))).map
      (fun v => v.map (fun o => o.getD 0))
    if XClean.length = 0 then
      .error "Nao ha dados validos para treinar o modelo"
    else
      let c := contamination.getD defaultContamination
      .ok (fit XClean c random_state n_estimators)

/-- Embedding of `detect_anomalies_consumo_estoque` (src/src/anomalies.py,
lines 134–169).  Note that the body never reads `train_model`: a fresh model
is trained on every call. -/
def detect_anomalies_consumo_estoque
    (fit : List (List ℚ) → ℚ → Int → Int → IsoForest) (df : DataFrame)
    (consumo_column : String := "consumo") (estoque_column : String := "estoque")
    (contamination : Option ℚ := none) (train_model : Bool := true) :
    Except String (ScoredFrame × IsoForest) :=
  let feature_cols := [consumo_column, estoque_column].filter
    (fun c => df.columns.contains c)
  if feature_cols.length = 0 then
    .error "Colunas de consumo ou estoque nao encontradas"
  else
    match train_isolation_forest fit df feature_cols contamination with
    | .error e => .error e
    | .ok model =>
      match detect_anomalies model df feature_cols with
      | .error e => .error e
      | .ok scored => .ok (scored, model)

/-- Severity labels shared by the alerting formatter and the dashboard. -/
inductive Severity
| critical
| high
| medium
deriving Repr, DecidableEq

/-- Severity classification inside `format_anomaly_alert`
(src/src/alerts.py, line 200): `"CRITICA" if score > 0.7 else "ALTA" if
score > 0.6 else "MEDIA"` — strict comparisons. -/
def alert_severity (score : ℚ) : Severity :=
  if score > 7/10 then .critical
  else if score > 6/10 then .high
  else .medium

/-- Severity classification of the dashboard badge, `get_severity_badge`
(src/app.py, lines 349–356): non-strict comparisons. -/
def get_severity_badge (score : ℚ) : Severity :=
  if score ≥ 7/10 then .critical
  else if score ≥ 6/10 then .high
  else .medium

/-- `true` exactly when the embedded Python function raised. -/
def raised : Except String α → Bool
  | .error _ => true
  | .ok _ => false

/-- Scattering the image of the filtered entries back over the mask derived
from the same list is pointwise selection. -/
theorem scatter_filter_map (p : α → Bool) (f : α → β) (d : β) (l : List α) :
    scatter (l.map p) ((l.filter p).map f) d =
      l.map (fun a => if p a then f a else d) := by
  induction l with
  | nil => rfl
  | cons a l ih =>
    by_cases hpa : p a
    · simp only [List.map_cons, List.filter_cons, hpa, if_pos, List.map_cons]
      simpa [scatter, hpa] using ih
    · simp only [List.map_cons, List.filter_cons, hpa]
      simpa [scatter, hpa] using ih

/-- C1: whenever `detect_anomalies` succeeds, the output keeps the input
frame unchanged, writes for each all-non-NaN row the negated raw model score
into `anomaly_score` and the flag `predict = -1` into `is_anomaly`, and
leaves `anomaly_score = NaN`, `is_anomaly = false` on each row with a NaN
feature. -/
theorem detect_anomalies_spec (m : IsoForest) (df : DataFrame) (fc : List String)
    (out : ScoredFrame) (h : detect_anomalies m df fc = .ok out) :
    out.base = df ∧
    out.anomaly_score = df.rows.map (fun r =>
      if validRow fc r then some (-(m.score_samples (featureVals fc r))) else none) ∧
    out.is_anomaly = df.rows.map (fun r =>
      if validRow fc r then (m.predict (featureVals fc r) == -1) else false) := by
  unfold detect_anomalies at h
  split at h
  · exact absurd h (by simp)
  · dsimp only at h
    split at h
    · exact absurd h (by simp)
    · injection h with h
      subst h
      refine ⟨rfl, ?_, ?_⟩
      · show scatter _ _ _ = _
        simp only [List.map_map, List.filter_map]
        rw [scatter_filter_map]
        rfl
      · show scatter _ _ _ = _
        simp only [List.map_map, List.filter_map]
        rw [scatter_filter_map]
        rfl

/-- Concrete model for evaluating the anomaly-engine theorems: raw score is
the sum of the feature vector, and rows with sum ≥ 10 are outliers. -/
def exModel : IsoForest :=
  { score_samples := fun v => v.foldr (· + ·) 0
    predict := fun v => if v.foldr (· + ·) 0 ≥ 10 then -1 else 1 }

/-- Concrete frame: three rows over columns `a`, `b`; the middle row has a
NaN feature. -/
def exFrame : DataFrame :=
  { columns := ["a", "b"]
    rows := [[("a", some 1), ("b", some 2)],
             [("a", none), ("b", some 3)],
             [("a", some 7), ("b", some 8)]] }

/-- Witness for C1 at a concrete model and frame. -/
theorem detect_anomalies_spec_witness :
    detect_anomalies exModel exFrame ["a", "b"] =
      .ok { base := exFrame
            anomaly_score := [some (-3), none, some (-15)]
            is_anomaly := [false, false, true] } ∧
    ({ base := exFrame
       anomaly_score := [some (-3), none, some (-15)]
       is_anomaly := [false, false, true] : ScoredFrame }).base = exFrame ∧
    ({ base := exFrame
       anomaly_score := [some (-3), none, some (-15)]
       is_anomaly := [false, false, true] : ScoredFrame }).anomaly_score =
      exFrame.rows.map (fun r =>
        if validRow ["a", "b"] r then
          some (-(exModel.score_samples (featureVals ["a", "b"] r))) else none) ∧
    ({ base := exFrame
       anomaly_score := [some (-3), none, some (-15)]
       is_anomaly := [false, false, true] : ScoredFrame }).is_anomaly =
      exFrame.rows.map (fun r =>
        if validRow ["a", "b"] r then
          (exModel.predict (featureVals ["a", "b"] r) == -1) else false) := by
  refine ⟨?_, ?_⟩
  · norm_num +decide [detect_anomalies, missingCols, DRow.get, featureVector, validRow,
      featureVals, exModel, exFrame, scatter, List.filter, List.find?]
  · have h := detect_anomalies_spec exModel exFrame ["a", "b"]
      { base := exFrame
        anomaly_score := [some (-3), none, some (-15)]
        is_anomaly := [false, false, true] }
      (by norm_num +decide [detect_anomalies, missingCols, DRow.get, featureVector, validRow,
        featureVals, exModel, exFrame, scatter, List.filter, List.find?])
    exact h

/-- The clean feature matrix is empty exactly when no row has all features
non-NaN. -/
theorem XClean_empty_iff (fc : List String) (df : DataFrame) :
    ((((df.rows.map (featureVector fc)).filter
        (fun v => v.all (fun o => o.isSome))).map
        (fun v => v.map (fun o => o.getD 0))).length = 0 ↔
      validRows fc df = []) := by
  rw [List.length_map, List.filter_map, List.length_map, List.length_eq_zero]
  unfold validRows
  constructor
  · intro h
    have : df.rows.filter ((fun v => v.all fun o => o.isSome) ∘ featureVector fc) =
        df.rows.filter (fun r => validRow fc r) := by
      apply List.filter_congr
      intro x _
      rfl
    rw [← this, h]
  · intro h
    have : df.rows.filter ((fun v => v.all fun o => o.isSome) ∘ featureVector fc) =
        df.rows.filter (fun r => validRow fc r) := by
      apply List.filter_congr
      intro x _
      rfl
    rw [this, h]

/-- C3: Train and Score raise exactly when a requested feature column is
absent or when zero rows have all feature columns non-NaN; in the embedding a
raise returns `Except.error`, so no scored output exists in that case. -/
theorem anomaly_engine_raises_iff
    (fit : List (List ℚ) → ℚ → Int → Int → IsoForest) (m : IsoForest)
    (df : DataFrame) (fc : List String) (contamination : Option ℚ)
    (rs ne : Int) :
    (raised (train_isolation_forest fit df fc contamination rs ne) = true ↔
      missingCols fc df ≠ [] ∨ validRows fc df = []) ∧
    (raised (detect_anomalies m df fc) = true ↔
      missingCols fc df ≠ [] ∨ validRows fc df = []) := by
  constructor
  · unfold train_isolation_forest
    split
    · simp_all [raised]
    · dsimp only
      split
      · rename_i h1 h2
        simp only [raised, true_iff]
        right
        exact (XClean_empty_iff fc df).mp h2
      · rename_i h1 h2
        simp only [raised, Bool.false_eq_true, false_iff, not_or]
        exact ⟨h1, fun he => h2 ((XClean_empty_iff fc df).mpr he)⟩
  · unfold detect_anomalies
    split
    · simp_all [raised]
    · dsimp only
      split
      · rename_i h1 h2
        simp only [raised, true_iff]
        right
        exact (XClean_empty_iff fc df).mp h2
      · rename_i h1 h2
        simp only [raised, Bool.false_eq_true, false_iff, not_or]
        exact ⟨h1, fun he => h2 ((XClean_empty_iff fc df).mpr he)⟩

/-- C9: scoring is deterministic — two `detect_anomalies` calls on identical
model, data and feature columns return identical results (the embedding of
the Python function is a pure function of its arguments; it reads no other
state and uses no randomness). -/
theorem detect_anomalies_deterministic (m : IsoForest) (df₁ df₂ : DataFrame)
    (fc₁ fc₂ : List String) (hdf : df₁ = df₂) (hfc : fc₁ = fc₂) :
    detect_anomalies m df₁ fc₁ = detect_anomalies m df₂ fc₂ := by
  rw [hdf, hfc]

/-- Witness for C9 at a concrete model, frame and feature list. -/
theorem detect_anomalies_deterministic_witness :
    exFrame = exFrame ∧ ["a", "b"] = ["a", "b"] ∧
    detect_anomalies exModel exFrame ["a", "b"] =
      detect_anomalies exModel exFrame ["a", "b"] :=
  ⟨rfl, rfl, detect_anomalies_deterministic exModel exFrame exFrame
    ["a", "b"] ["a", "b"] rfl rfl⟩

/-- C10: the `train_model` flag of `detect_anomalies_consumo_estoque` is
never read by the body — the call with `train_model = false` returns exactly
the same result as the call with `train_model = true`. -/
theorem train_model_flag_has_no_effect
    (fit : List (List ℚ) → ℚ → Int → Int → IsoForest) (df : DataFrame)
    (consumo_column estoque_column : String) (contamination : Option ℚ) :
    detect_anomalies_consumo_estoque fit df consumo_column estoque_column
      contamination true =
    detect_anomalies_consumo_estoque fit df consumo_column estoque_column
      contamination false := rfl

/-- C2 counterexample: at a score of exactly 0.7 the alerting formatter
(strict `>` at alerts.py line 200) says HIGH while the dashboard badge
(`>=` at app.py line 351) says CRITICAL, and at exactly 0.6 the formatter
says MEDIUM while the badge says HIGH — the two consumers disagree on the
boundary scores, so the claim that both classify 0.7 as CRITICAL and 0.6 as
HIGH is false. -/
theorem severity_boundary_disagreement :
    alert_severity (7/10) = Severity.high ∧
    get_severity_badge (7/10) = Severity.critical ∧
    alert_severity (6/10) = Severity.medium ∧
    get_severity_badge (6/10) = Severity.high := by
  refine ⟨?_, ?_, ?_, ?_⟩ <;> norm_num [alert_severity, get_severity_badge]

/-- C2 amended: the dashboard badge is CRITICAL iff score ≥ 0.7, HIGH iff
0.6 ≤ score < 0.7, MEDIUM iff score < 0.6; the alerting formatter is
CRITICAL iff score > 0.7, HIGH iff 0.6 < score ≤ 0.7, MEDIUM iff
score ≤ 0.6; both are pure functions of the score, and they agree on every
score except exactly 0.6 and exactly 0.7. -/
theorem severity_thresholds (s : ℚ) :
    (get_severity_badge s = Severity.critical ↔ 7/10 ≤ s) ∧
    (get_severity_badge s = Severity.high ↔ 6/10 ≤ s ∧ s < 7/10) ∧
    (get_severity_badge s = Severity.medium ↔ s < 6/10) ∧
    (alert_severity s = Severity.critical ↔ 7/10 < s) ∧
    (alert_severity s = Severity.high ↔ 6/10 < s ∧ s ≤ 7/10) ∧
    (alert_severity s = Severity.medium ↔ s ≤ 6/10) ∧
    (alert_severity s = get_severity_badge s ∨ s = 6/10 ∨ s = 7/10) := by
  unfold alert_severity get_severity_badge
  split_ifs with h1 h2 h3 h4 h5 h6 h7 h8 h9 <;>
    refine ⟨?_, ?_, ?_, ?_, ?_, ?_, ?_⟩ <;>
    simp_all <;>
    first
      | linarith
      | (constructor <;> linarith)
      | (left; linarith)
      | (right; linarith)

/-- A raw input row of the aggregator: product key, calendar day (already
normalised to a whole day, as `dt.normalize()` does), and the remaining
numeric cells by column name. -/
structure RawRow where
  produto_id : String
  data : ℤ
  cells : List (String × Cell)
deriving Repr, DecidableEq

/-- The aggregator's input frame: all column names plus the rows. -/
structure RawFrame where
  columns : List String
  rows : List RawRow
deriving Repr, DecidableEq

/-- One output row of the aggregator: the group key and the aggregate cells
(`{source_column}_{statistic}` ↦ value). -/
structure AggRow where
  produto_id : String
  data : ℤ
  aggs : List (String × Cell)
deriving Repr, DecidableEq

/-- The statistic names accepted by `aggregate_daily_by_item`
(src/src/data_aggregator.py, line 64). -/
def validAggFuncs : List String := ["mean", "sum", "min", "max", "std", "count"]

/-- Default aggregation spec (src/src/data_aggregator.py, lines 51–55). -/
def defaultAggregations : List (String × List String) :=
  [("consumo", ["mean", "sum", "min", "max", "std"]),
   ("estoque", ["mean", "min", "max", "std"])]

/-- Build `agg_functions` (src/src/data_aggregator.py, lines 57–68): keep
each requested column that exists, with its recognised statistic names; drop
a column whose recognised list is empty. -/
def resolveAggs (columns : List String)
    (aggregations : List (String × List String)) : List (String × List String) :=
  aggregations.filterMap (fun cf =>
    if cf.1 ∈ columns then
      let fl := cf.2.filter (fun f => f ∈ validAggFuncs)
      if fl = [] then none else some (cf.1, fl)
    else none)

/-- The distinct `(produto_id, data)` pairs — the groupby keys. -/
def groupKeys (rows : List RawRow) : List (String × ℤ) :=
  (rows.map (fun r => (r.produto_id, r.data))).dedup

/-- The raw rows of one group. -/
def groupRows (rows : List RawRow) (k : String × ℤ) : List RawRow :=
  rows.filter (fun r => r.produto_id = k.1 ∧ r.data = k.2)

/-- One pandas groupby statistic on the cells of a column inside one group.
NaN cells are skipped, as pandas does.  `std` is modelled up to the final
(strictly monotone) square root: the returned value is the sample variance,
`none` exactly when pandas would report NaN (fewer than two non-NaN cells);
`sum` of an all-NaN group is `0`, also as pandas reports it. -/
def aggStat (f : String) (cells : List Cell) : Cell :=
  let valid := cells.filterMap id
  match f with
  | "mean" => if valid = [] then none else some (valid.sum / valid.length)
  | "sum" => some valid.sum
  | "min" => valid.min?
  | "max" => valid.max?
  | "std" =>
    if 2 ≤ valid.length then
      some ((valid.map (fun x => (x - valid.sum / valid.length) ^ 2)).sum /
        ((valid.length : ℚ) - 1))
    else none
  | "count" => some (valid.length : ℚ)
  | _ => none

/-- Cells of column `c` over the rows of group `k`. -/
def groupCells (rows : List RawRow) (k : String × ℤ) (c : String) : List Cell :=
  (groupRows rows k).map (fun r => DRow.get r.cells c)

/-- The flattened output column names `{source_column}_{statistic}`. -/
def aggColumnNames (resolved : List (String × List String)) : List String :=
  resolved.flatMap (fun cf => cf.2.map (fun f => cf.1 ++ "_" ++ f))

/-- The grouped frame before gap-filling and sorting: one row per group.  In
the degenerate branch (`agg_functions` empty) the row holds the group size
in a `count` column (`grouped.size()`); otherwise it holds every requested
statistic (src/src/data_aggregator.py, lines 70–84). -/
def baseAggRows (frame : RawFrame)
    (resolved : List (String × List String)) : List AggRow :=
  if resolved = [] then
    (groupKeys frame.rows).map (fun k =>
      { produto_id := k.1, data := k.2
        aggs := [("count", some ((groupRows frame.rows k).length : ℚ))] })
  else
    (groupKeys frame.rows).map (fun k =>
      { produto_id := k.1, data := k.2
        aggs := resolved.flatMap (fun cf => cf.2.map (fun f =>
          (cf.1 ++ "_" ++ f, aggStat f (groupCells frame.rows k cf.1)))) })

/-- Embedding of `_fill_missing_dates` (src/src/data_aggregator.py, lines
102–135): reindex over every (present product) × (day in the span from the
frame's min to max date); a key with no aggregated row becomes a row whose
aggregate cells are all NaN. -/
def fillMissingDates (aggCols : List String) (rows : List AggRow) : List AggRow :=
  match (rows.map (fun r => r.data)).min?, (rows.map (fun r => r.data)).max? with
  | some dmin, some dmax =>
    let dates := (List.range ((dmax - dmin).toNat + 1)).map (fun i : ℕ => dmin + (i : ℤ))
    let products := (rows.map (fun r => r.produto_id)).dedup
    products.flatMap (fun p => dates.map (fun d =>
      match rows.find? (fun r => r.produto_id = p ∧ r.data = d) with
      | some r => r
      | none => { produto_id := p, data := d, aggs := aggCols.map (fun c => (c, none)) }))
  | _, _ => rows

/-- Final sort by `(produto_id, data)` ascending (line 91). -/
def sortAgg (l : List AggRow) : List AggRow :=
  l.mergeSort (fun a b =>
    a.produto_id < b.produto_id ∨ (a.produto_id = b.produto_id ∧ a.data ≤ b.data))

/-- Embedding of `aggregate_daily_by_item` (src/src/data_aggregator.py,
lines 16–99): check the required columns, resolve the aggregation spec
(falling back to the default spec when none is given), group by
(product, day), optionally gap-fill, and sort. -/
def aggregate_daily_by_item (frame : RawFrame)
    (aggregations : Option (List (String × List String)) := none)
    (fill_missing_dates : Bool := false) : Except String (List AggRow) :=
  if "data" ∉ frame.columns ∨ "produto_id" ∉ frame.columns then
    .error "Colunas obrigatorias nao encontradas"
  else
    let resolved := resolveAggs frame.columns (aggregations.getD defaultAggregations)
    let base := baseAggRows frame resolved
    let cols := if resolved = [] then ["count"] else aggColumnNames resolved
    let filled := if fill_missing_dates then fillMissingDates cols base else base
    .ok (sortAgg filled)

instance : Std.Antisymm (fun x1 x2 : ℤ => x1 ≤ x2) :=
  ⟨fun h1 h2 => le_antisymm h1 h2⟩

/-- Two integer lists with the same members have the same minimum. -/
theorem min?_congr {l₁ l₂ : List ℤ} (h : ∀ x : ℤ, x ∈ l₁ ↔ x ∈ l₂) :
    l₁.min? = l₂.min? := by
  cases h₁ : l₁.min? with
  | none =>
    rw [List.min?_eq_none_iff] at h₁
    subst h₁
    cases h₂ : l₂.min? with
    | none => rfl
    | some b =>
      have hb := (List.min?_eq_some_iff (fun a => le_refl a)
        (fun a b => min_choice a b) (fun a b c => le_min_iff)).mp h₂
      exact absurd ((h b).mpr hb.1) (List.not_mem_nil b)
  | some a =>
    have ha := (List.min?_eq_some_iff (fun a => le_refl a)
      (fun a b => min_choice a b) (fun a b c => le_min_iff)).mp h₁
    symm
    rw [List.min?_eq_some_iff (fun a => le_refl a) (fun a b => min_choice a b)
      (fun a b c => le_min_iff)]
    exact ⟨(h a).mp ha.1, fun b hb => ha.2 b ((h b).mpr hb)⟩

/-- Two integer lists with the same members have the same maximum. -/
theorem max?_congr {l₁ l₂ : List ℤ} (h : ∀ x : ℤ, x ∈ l₁ ↔ x ∈ l₂) :
    l₁.max? = l₂.max? := by
  cases h₁ : l₁.max? with
  | none =>
    rw [List.max?_eq_none_iff] at h₁
    subst h₁
    cases h₂ : l₂.max? with
    | none => rfl
    | some b =>
      have hb := (List.max?_eq_some_iff (fun a => le_refl a)
        (fun a b => max_choice a b) (fun a b c => max_le_iff)).mp h₂
      exact absurd ((h b).mpr hb.1) (List.not_mem_nil b)
  | some a =>
    have ha := (List.max?_eq_some_iff (fun a => le_refl a)
      (fun a b => max_choice a b) (fun a b c => max_le_iff)).mp h₁
    symm
    rw [List.max?_eq_some_iff (fun a => le_refl a) (fun a b => max_choice a b)
      (fun a b c => max_le_iff)]
    exact ⟨(h a).mp ha.1, fun b hb => ha.2 b ((h b).mpr hb)⟩

/-- Two lists with the same members have equally long deduplications. -/
theorem dedup_length_congr {α : Type} [DecidableEq α] {l₁ l₂ : List α}
    (h : ∀ x, x ∈ l₁ ↔ x ∈ l₂) : l₁.dedup.length = l₂.dedup.length := by
  rw [← List.card_toFinset, ← List.card_toFinset, List.toFinset.ext h]

/-- Mapping after deduplication reaches the same members as mapping alone. -/
theorem mem_map_dedup_iff {α β : Type} [DecidableEq α] (l : List α) (f : α → β)
    (x : β) : x ∈ l.dedup.map f ↔ x ∈ l.map f := by
  simp only [List.mem_map, List.mem_dedup]

/-- Flattening constant-length blocks multiplies the lengths. -/
theorem length_flatMap_const {α β : Type} (l : List α) (f : α → List β) (n : ℕ)
    (h : ∀ a ∈ l, (f a).length = n) : (l.flatMap f).length = l.length * n := by
  induction l with
  | nil => simp
  | cons a l ih =>
    rw [List.flatMap_cons, List.length_append, h a (by simp),
      ih (fun b hb => h b (by simp [hb])), List.length_cons, Nat.succ_mul,
      Nat.add_comm]

/-- The distinct pairs are at most as many as the product of the distinct
component values. -/
theorem dedup_length_le_mul (l : List (String × ℤ)) :
    l.dedup.length ≤
      (l.map Prod.fst).dedup.length * (l.map Prod.snd).dedup.length := by
  rw [← List.card_toFinset, ← List.card_toFinset, ← List.card_toFinset,
    ← Finset.card_product]
  apply Finset.card_le_card
  intro x hx
  rw [List.mem_toFinset] at hx
  rw [Finset.mem_product]
  constructor <;> rw [List.mem_toFinset]
  · exact List.mem_map_of_mem Prod.fst hx
  · exact List.mem_map_of_mem Prod.snd hx

/-- In both branches of `baseAggRows` the key of each output row is the
group key it was built from. -/
theorem baseAggRows_keys (frame : RawFrame)
    (resolved : List (String × List String)) :
    (baseAggRows frame resolved).map (fun r => (r.produto_id, r.data)) =
      groupKeys frame.rows := by
  unfold baseAggRows
  split <;> rw [List.map_map] <;> exact List.map_id _

/-- Shape of the gap-filled frame: its row count is (distinct products) ×
(span length), and every row either comes from the grouped frame or is a
filler row whose aggregate cells are all NaN. -/
theorem fillMissingDates_spec (aggCols : List String) (rows : List AggRow)
    (dmin dmax : ℤ)
    (hmin : (rows.map (fun r => r.data)).min? = some dmin)
    (hmax : (rows.map (fun r => r.data)).max? = some dmax) :
    (fillMissingDates aggCols rows).length =
      (rows.map (fun r => r.produto_id)).dedup.length * ((dmax - dmin).toNat + 1) ∧
    ∀ row ∈ fillMissingDates aggCols rows,
      row ∈ rows ∨ row.aggs = aggCols.map (fun c => (c, none)) := by
  unfold fillMissingDates
  rw [hmin, hmax]
  dsimp only
  constructor
  · rw [length_flatMap_const _ _ ((dmax - dmin).toNat + 1)
      (fun p _ => by simp)]
  · intro row hrow
    rw [List.mem_flatMap] at hrow
    obtain ⟨p, hp, hrow⟩ := hrow
    rw [List.mem_map] at hrow
    obtain ⟨d, hd, hrow⟩ := hrow
    revert hrow
    cases hfind : rows.find? (fun r => r.produto_id = p ∧ r.data = d) with
    | some r =>
      intro hrow
      left
      rw [← hrow]
      exact List.mem_of_find?_eq_some hfind
    | none =>
      intro hrow
      right
      rw [← hrow]

/-- Number of distinct products in the raw frame. -/
def nDistinctProducts (frame : RawFrame) : ℕ :=
  (frame.rows.map (fun r => r.produto_id)).dedup.length

/-- Number of distinct calendar days present in the raw frame. -/
def nDistinctDays (frame : RawFrame) : ℕ :=
  (frame.rows.map (fun r => r.data)).dedup.length

/-- Number of calendar days in the inclusive span from the frame's global
minimum to its global maximum date (0 on an empty frame). -/
def dateSpanLen (frame : RawFrame) : ℕ :=
  match (frame.rows.map (fun r => r.data)).min?,
      (frame.rows.map (fun r => r.data)).max? with
  | some a, some b => (b - a).toNat + 1
  | _, _ => 0

/-- The products of the grouped frame are the products of the raw frame. -/
theorem base_products_mem (frame : RawFrame)
    (res : List (String × List String)) (x : String) :
    x ∈ (baseAggRows frame res).map (fun r => r.produto_id) ↔
      x ∈ frame.rows.map (fun r => r.produto_id) := by
  have h1 : (baseAggRows frame res).map (fun r => r.produto_id) =
      (groupKeys frame.rows).map Prod.fst := by
    rw [← baseAggRows_keys frame res, List.map_map]
    rfl
  rw [h1]
  unfold groupKeys
  rw [mem_map_dedup_iff, List.map_map]
  exact Iff.rfl

/-- The dates of the grouped frame are the dates of the raw frame. -/
theorem base_dates_mem (frame : RawFrame)
    (res : List (String × List String)) (x : ℤ) :
    x ∈ (baseAggRows frame res).map (fun r => r.data) ↔
      x ∈ frame.rows.map (fun r => r.data) := by
  have h1 : (baseAggRows frame res).map (fun r => r.data) =
      (groupKeys frame.rows).map Prod.snd := by
    rw [← baseAggRows_keys frame res, List.map_map]
    rfl
  rw [h1]
  unfold groupKeys
  rw [mem_map_dedup_iff, List.map_map]
  exact Iff.rfl

/-- The key of every grouped row appears among the group keys. -/
theorem baseAggRows_key_mem (frame : RawFrame)
    (res : List (String × List String)) (row : AggRow)
    (h : row ∈ baseAggRows frame res) :
    (row.produto_id, row.data) ∈ groupKeys frame.rows := by
  rw [← baseAggRows_keys frame res]
  exact List.mem_map_of_mem _ h

/-- Sorting preserves the row count. -/
theorem sortAgg_length (l : List AggRow) : (sortAgg l).length = l.length :=
  List.length_mergeSort l

/-- Sorting preserves membership. -/
theorem mem_sortAgg (row : AggRow) (l : List AggRow) :
    row ∈ sortAgg l ↔ row ∈ l :=
  List.mem_mergeSort

/-- C4: for non-empty input the aggregator's row count without gap-filling
is at most (distinct products) × (distinct days present), and with
gap-filling it is exactly (distinct products) × (inclusive date-span
length), with every row for a (product, day) key that has no raw
observation carrying NaN in all aggregate columns. -/
theorem aggregate_row_counts (frame : RawFrame)
    (aggregations : Option (List (String × List String)))
    (hne : frame.rows ≠ [])
    (hd : "data" ∈ frame.columns) (hp : "produto_id" ∈ frame.columns) :
    (∀ out, aggregate_daily_by_item frame aggregations false = .ok out →
      out.length ≤ nDistinctProducts frame * nDistinctDays frame) ∧
    (∀ out, aggregate_daily_by_item frame aggregations true = .ok out →
      out.length = nDistinctProducts frame * dateSpanLen frame ∧
      ∀ row ∈ out,
        (∀ rr ∈ frame.rows, ¬(rr.produto_id = row.produto_id ∧ rr.data = row.data)) →
        ∀ c ∈ row.aggs, c.2 = none) := by
  have hcol : ¬("data" ∉ frame.columns ∨ "produto_id" ∉ frame.columns) := by
    simp [hd, hp]
  have hbaselen : ∀ res, (baseAggRows frame res).length =
      (groupKeys frame.rows).length := by
    intro res
    have := congrArg List.length (baseAggRows_keys frame res)
    rwa [List.length_map] at this
  constructor
  · intro out hout
    unfold aggregate_daily_by_item at hout
    rw [if_neg hcol] at hout
    dsimp only at hout
    rw [if_neg (by simp)] at hout
    injection hout with hout
    rw [← hout, sortAgg_length, hbaselen]
    unfold groupKeys
    have h := dedup_length_le_mul (frame.rows.map (fun r => (r.produto_id, r.data)))
    rw [List.map_map, List.map_map] at h
    exact h
  · intro out hout
    unfold aggregate_daily_by_item at hout
    rw [if_neg hcol] at hout
    dsimp only at hout
    rw [if_pos (by simp)] at hout
    injection hout with hout
    set res := resolveAggs frame.columns (aggregations.getD defaultAggregations) with hres
    set base := baseAggRows frame res with hbase
    have hbase_ne : base ≠ [] := by
      intro hnil
      have : (groupKeys frame.rows).length = 0 := by
        rw [← hbaselen res, ← hbase, hnil]
        rfl
      rw [List.length_eq_zero] at this
      unfold groupKeys at this
      rw [List.dedup_eq_nil, List.map_eq_nil_iff] at this
      exact hne this
    obtain ⟨dmin, hdmin⟩ : ∃ d, (base.map (fun r => r.data)).min? = some d := by
      cases hm : (base.map (fun r => r.data)).min? with
      | none =>
        rw [List.min?_eq_none_iff, List.map_eq_nil_iff] at hm
        exact absurd hm hbase_ne
      | some d => exact ⟨d, rfl⟩
    obtain ⟨dmax, hdmax⟩ : ∃ d, (base.map (fun r => r.data)).max? = some d := by
      cases hm : (base.map (fun r => r.data)).max? with
      | none =>
        rw [List.max?_eq_none_iff, List.map_eq_nil_iff] at hm
        exact absurd hm hbase_ne
      | some d => exact ⟨d, rfl⟩
    have hmin' : (frame.rows.map (fun r => r.data)).min? = some dmin := by
      rw [← min?_congr (base_dates_mem frame res), hdmin]
    have hmax' : (frame.rows.map (fun r => r.data)).max? = some dmax := by
      rw [← max?_congr (base_dates_mem frame res), hdmax]
    have hspan : dateSpanLen frame = (dmax - dmin).toNat + 1 := by
      unfold dateSpanLen
      rw [hmin', hmax']
    have hfill := fillMissingDates_spec
      (if res = [] then ["count"] else aggColumnNames res) base dmin dmax hdmin hdmax
    constructor
    · rw [← hout, sortAgg_length, hfill.1, hspan]
      congr 1
      exact dedup_length_congr (base_products_mem frame res)
    · intro row hrow hnoraw
      rw [← hout, mem_sortAgg] at hrow
      rcases hfill.2 row hrow with hmem | hnan
      · exfalso
        have hkey := baseAggRows_key_mem frame res row hmem
        unfold groupKeys at hkey
        rw [List.mem_dedup, List.mem_map] at hkey
        obtain ⟨rr, hrr, hkeq⟩ := hkey
        have h1 : rr.produto_id = row.produto_id := congrArg Prod.fst hkeq
        have h2 : rr.data = row.data := congrArg Prod.snd hkeq
        exact hnoraw rr hrr ⟨h1, h2⟩
      · intro c hc
        rw [hnan, List.mem_map] at hc
        obtain ⟨cn, _, hcn⟩ := hc
        rw [← hcn]

/-- Concrete raw frame for the aggregator witnesses: two products, days 0
and 2 present, so the span {0, 1, 2} has a gap. -/
def exAggFrame : RawFrame :=
  { columns := ["data", "produto_id", "consumo"]
    rows := [{ produto_id := "A", data := 0, cells := [("consumo", some 5)] },
             { produto_id := "A", data := 2, cells := [("consumo", some 7)] },
             { produto_id := "B", data := 0, cells := [("consumo", some 1)] }] }

/-- Witness for C4 at the concrete frame. -/
theorem aggregate_row_counts_witness :
    (exAggFrame.rows ≠ [] ∧ "data" ∈ exAggFrame.columns ∧
      "produto_id" ∈ exAggFrame.columns) ∧
    ((∀ out, aggregate_daily_by_item exAggFrame none false = .ok out →
        out.length ≤ nDistinctProducts exAggFrame * nDistinctDays exAggFrame) ∧
     (∀ out, aggregate_daily_by_item exAggFrame none true = .ok out →
        out.length = nDistinctProducts exAggFrame * dateSpanLen exAggFrame ∧
        ∀ row ∈ out,
          (∀ rr ∈ exAggFrame.rows,
            ¬(rr.produto_id = row.produto_id ∧ rr.data = row.data)) →
          ∀ c ∈ row.aggs, c.2 = none)) :=
  ⟨⟨by decide, by decide, by decide⟩,
    aggregate_row_counts exAggFrame none (by decide) (by decide) (by decide)⟩

/-- C8: when the aggregation spec resolves to zero (column, statistic)
pairs, `aggregate_daily_by_item` does not raise — it returns one row per
(product, day) group whose single aggregate cell is the group's row count
in a column named `count`. -/
theorem aggregate_degenerate_fallback (frame : RawFrame)
    (aggList : List (String × List String))
    (hd : "data" ∈ frame.columns) (hp : "produto_id" ∈ frame.columns)
    (hres : resolveAggs frame.columns aggList = []) :
    aggregate_daily_by_item frame (some aggList) false =
      .ok (sortAgg ((groupKeys frame.rows).map (fun k =>
        { produto_id := k.1, data := k.2
          aggs := [("count", some ((groupRows frame.rows k).length : ℚ))] }))) := by
  unfold aggregate_daily_by_item baseAggRows
  rw [if_neg (by simp [hd, hp])]
  dsimp only
  rw [show (some aggList).getD defaultAggregations = aggList from rfl, hres]
  rw [if_neg (by simp), if_pos rfl]

/-- Witness for C8: a spec naming only an absent column and an unrecognised
statistic resolves to nothing, and the aggregator still returns the
count-per-group rows. -/
theorem aggregate_degenerate_fallback_witness :
    ("data" ∈ exAggFrame.columns ∧ "produto_id" ∈ exAggFrame.columns ∧
      resolveAggs exAggFrame.columns [("ausente", ["mean"]), ("consumo", ["median"])] = []) ∧
    aggregate_daily_by_item exAggFrame
        (some [("ausente", ["mean"]), ("consumo", ["median"])]) false =
      .ok (sortAgg ((groupKeys exAggFrame.rows).map (fun k =>
        { produto_id := k.1, data := k.2
          aggs := [("count", some ((groupRows exAggFrame.rows k).length : ℚ))] }))) :=
  ⟨⟨by decide, by decide, by decide⟩,
    aggregate_degenerate_fallback exAggFrame
      [("ausente", ["mean"]), ("consumo", ["median"])]
      (by decide) (by decide) (by decide)⟩

/-- A series row for the feature builder: group key (e.g. `produto_id`),
date `ds`, value `y` (nullable). -/
structure SRow where
  group : String
  ds : ℤ
  y : Cell
deriving Repr, DecidableEq

/-- An output row of the feature builder: the series row plus the new
feature columns. -/
structure FRow where
  group : String
  ds : ℤ
  y : Cell
  feats : List (String × Cell)
deriving Repr, DecidableEq

/-- Boolean lexicographic comparison of character lists. -/
def charListLT : List Char → List Char → Bool
  | [], [] => false
  | [], _ :: _ => true
  | _ :: _, [] => false
  | a :: as, b :: bs => if a < b then true else if b < a then false else charListLT as bs

/-- Lexicographic string comparison on the underlying characters — the order
Python/pandas uses on string keys (Lean's own `String.lt` denotes the same
order but its decision procedure does not evaluate inside the kernel). -/
def strLTb (a b : String) : Bool := charListLT a.data b.data

/-- Lexicographic order used by `sort_values([group_by, "ds"])`. -/
def seriesLE (a b : SRow) : Prop :=
  strLTb a.group b.group = true ∨ (a.group = b.group ∧ a.ds ≤ b.ds)

instance : DecidableRel seriesLE := fun a b => by
  unfold seriesLE
  exact inferInstance

/-- `df_features.sort_values([group_by, "ds"])` (features.py lines 37–40 and
88–92); the choice of sorting algorithm is immaterial to the claims. -/
def sortSeries (rows : List SRow) : List SRow :=
  rows.insertionSort seriesLE

/-- The groups in their grouped processing order. -/
def groupsOf (rows : List SRow) : List String :=
  ((sortSeries rows).map (fun r => r.group)).dedup

/-- Default lag list from `FEATURE_CONFIG` (src/src/config.py). -/
def defaultLags : List ℕ := [1, 7, 30]

/-- Default rolling windows from `FEATURE_CONFIG`. -/
def defaultRollingWindows : List ℕ := [7, 30]

/-- Default rolling aggregation names from `FEATURE_CONFIG`. -/
def defaultRollingAggs : List String := ["mean", "std", "min", "max"]

/-- The lag feature column name `{value_col}_lag_{k}`. -/
def lagFeatName (value_column : String) (k : ℕ) : String :=
  value_column ++ "_lag_" ++ toString k

/-- The rolling feature column name `{value_col}_rolling_{w}d_{agg}`. -/
def rollingFeatName (value_column : String) (w : ℕ) (agg : String) : String :=
  value_column ++ "_rolling_" ++ toString w ++ "d_" ++ agg

/-- `groupby(group_by)[value_column].shift(lag)` restricted to one group's
contiguous block: row `i` receives the block's value at `i - lag`, NaN when
the lag reaches before the block start. -/
def addLagsToBlock (value_column : String) (lags : List ℕ)
    (block : List SRow) : List FRow :=
  block.mapIdx (fun i r =>
    { group := r.group, ds := r.ds, y := r.y
      feats := lags.map (fun k =>
        (lagFeatName value_column k,
         if k ≤ i then (block[i - k]?).bind (fun rr => rr.y) else none)) })

/-- The non-NaN values inside the trailing window of nominal size `w` ending
at position `i` (pandas rolling windows range over positions; NaN entries
inside the window are skipped and do not count towards `min_periods`). -/
def rollingWindowVals (w : ℕ) (ys : List Cell) (i : ℕ) : List ℚ :=
  ((ys.take (i + 1)).drop (i + 1 - w)).filterMap id

/-- One pandas `rolling(window=w, min_periods=1).agg(agg)` entry at position
`i`.  With `min_periods=1` an aggregate is attempted as soon as one non-NaN
value is in the window; `std` (ddof = 1) of fewer than two values is still
NaN.  As for the aggregator, `std` is modelled up to the final strictly
monotone square root: the value carried is the sample variance and the
`none`/`some` shape is exactly pandas' NaN shape. -/
def rollingAggAt (agg : String) (w : ℕ) (ys : List Cell) (i : ℕ) : Cell :=
  let vals := rollingWindowVals w ys i
  match agg with
  | "mean" => if vals = [] then none else some (vals.sum / vals.length)
  | "min" => vals.min?
  | "max" => vals.max?
  | "std" =>
    if 2 ≤ vals.length then
      some ((vals.map (fun x => (x - vals.sum / vals.length) ^ 2)).sum /
        ((vals.length : ℚ) - 1))
    else none
  | _ => none

/-- Rolling features over one group's contiguous block (features.py lines
94–113): one new column per (window, aggregation) pair. -/
def addRollingToBlock (value_column : String) (windows : List ℕ)
    (aggregations : List String) (block : List SRow) : List FRow :=
  let ys := block.map (fun r => r.y)
  block.mapIdx (fun i r =>
    { group := r.group, ds := r.ds, y := r.y
      feats := windows.flatMap (fun w => aggregations.map (fun agg =>
        (rollingFeatName value_column w agg, rollingAggAt agg w ys i))) })

/-- Embedding of the grouped branch of `create_lag_features` (features.py
lines 13–56): sort by (group, date), then shift inside each group.  Sorted
groups are contiguous and pandas reassigns the groupwise results by
position, so the computation is per-block. -/
def create_lag_features (rows : List SRow) (value_column : String)
    (lags : List ℕ := defaultLags) : List FRow :=
  (groupsOf rows).flatMap (fun g =>
    addLagsToBlock value_column lags
      ((sortSeries rows).filter (fun r => r.group = g)))

/-- Embedding of the grouped branch of `create_rolling_features`
(features.py lines 59–120), same per-block shape as the lags. -/
def create_rolling_features (rows : List SRow) (value_column : String)
    (windows : List ℕ := defaultRollingWindows)
    (aggregations : List String := defaultRollingAggs) : List FRow :=
  (groupsOf rows).flatMap (fun g =>
    addRollingToBlock value_column windows aggregations
      ((sortSeries rows).filter (fun r => r.group = g)))

/-- C6: inside a group's (group, date)-sorted block, the lag-k feature at
row i is the y value of the block's row i−k when i ≥ k and NaN otherwise;
the block contains only the group's own rows (so a lag never reads another
group's history), and each block row is part of the full output. -/
theorem lag_feature_spec (rows : List SRow) (value_column : String) (k : ℕ)
    (g : String) (block : List SRow)
    (hg : g ∈ groupsOf rows)
    (hblock : block = (sortSeries rows).filter (fun r => r.group = g))
    (i : ℕ) (hi : i < block.length) :
    (addLagsToBlock value_column [k] block)[i]? =
      some { group := (block.get ⟨i, hi⟩).group, ds := (block.get ⟨i, hi⟩).ds
             y := (block.get ⟨i, hi⟩).y
             feats := [(lagFeatName value_column k,
               if k ≤ i then (block[i - k]?).bind (fun rr => rr.y) else none)] } ∧
    (∀ x ∈ block, x.group = g) ∧
    (∀ fr ∈ addLagsToBlock value_column [k] block,
      fr ∈ create_lag_features rows value_column [k]) := by
  refine ⟨?_, ?_, ?_⟩
  · unfold addLagsToBlock
    rw [List.getElem?_mapIdx, List.getElem?_eq_getElem hi]
    rfl
  · intro x hx
    rw [hblock] at hx
    exact of_decide_eq_true ((List.mem_filter.mp hx).2)
  · intro fr hfr
    unfold create_lag_features
    rw [List.mem_flatMap]
    exact ⟨g, hg, by rw [← hblock]; exact hfr⟩

/-- Concrete series for the feature-builder witnesses: two groups, rows out
of order. -/
def exSeries : List SRow :=
  [{ group := "B", ds := 0, y := some 3 },
   { group := "A", ds := 1, y := some 2 },
   { group := "A", ds := 0, y := some 1 }]

/-- The sorted block of group A in `exSeries`. -/
def exBlock : List SRow :=
  [{ group := "A", ds := 0, y := some 1 },
   { group := "A", ds := 1, y := some 2 }]

/-- Witness for C6 at the concrete series, lag 1, row 1 of group A. -/
theorem lag_feature_spec_witness :
    ("A" ∈ groupsOf exSeries ∧
      exBlock = (sortSeries exSeries).filter (fun r => r.group = "A") ∧
      1 < exBlock.length) ∧
    ((addLagsToBlock "y" [1] exBlock)[1]? =
      some { group := (exBlock.get ⟨1, by decide⟩).group
             ds := (exBlock.get ⟨1, by decide⟩).ds
             y := (exBlock.get ⟨1, by decide⟩).y
             feats := [(lagFeatName "y" 1,
               if 1 ≤ 1 then (exBlock[1 - 1]?).bind (fun rr => rr.y) else none)] } ∧
     (∀ x ∈ exBlock, x.group = "A") ∧
     (∀ fr ∈ addLagsToBlock "y" [1] exBlock,
       fr ∈ create_lag_features exSeries "y" [1])) :=
  ⟨⟨by decide, by rfl, by decide⟩,
    lag_feature_spec exSeries "y" 1 "A" exBlock (by decide) (by rfl) 1 (by decide)⟩

/-- Look a feature column up in an output row: `some cell` when the column
exists (with `cell = none` meaning its value is NaN), `none` when the row
has no such column. -/
def lookupFeat (r : FRow) (c : String) : Option Cell :=
  (r.feats.find? (fun p => p.1 = c)).map (fun p => p.2)

/-- C5 counterexample: with the default configured aggregation set
(`mean, std, min, max`) and window 7, the `std` rolling feature at the first
(and only) row of a group is a missing value, because the sample standard
deviation (ddof = 1) of a single observation is undefined — `min_periods=1`
does not make it produce a value. -/
theorem rolling_std_first_row_missing :
    (create_rolling_features [{ group := "A", ds := 0, y := some 5 }] "y" [7]
        defaultRollingAggs).map
      (fun r => lookupFeat r (rollingFeatName "y" 7 "std")) = [some none] := by
  decide

/-- C5 amended: at the first row of a group's sorted block, with a window
`w > 0` and the default configured aggregations, `min_periods=1` yields a
value for `mean`, `min` and `max` — the rolling mean equals the single
row's value — while `std` yields a missing value (sample std of one
observation); each block row is part of the full output. -/
theorem rolling_first_row_spec (rows : List SRow) (value_column : String)
    (w : ℕ) (hw : 0 < w) (g : String) (r : SRow) (rest : List SRow)
    (hg : g ∈ groupsOf rows)
    (hblock : (sortSeries rows).filter (fun x => x.group = g) = r :: rest)
    (v : ℚ) (hv : r.y = some v) :
    (addRollingToBlock value_column [w] defaultRollingAggs (r :: rest))[0]? =
      some { group := r.group, ds := r.ds, y := r.y
             feats := [(rollingFeatName value_column w "mean", some v),
                       (rollingFeatName value_column w "std", none),
                       (rollingFeatName value_column w "min", some v),
                       (rollingFeatName value_column w "max", some v)] } ∧
    (∀ fr ∈ addRollingToBlock value_column [w] defaultRollingAggs (r :: rest),
      fr ∈ create_rolling_features rows value_column [w] defaultRollingAggs) := by
  constructor
  · unfold addRollingToBlock
    rw [List.getElem?_mapIdx]
    have hwin : rollingWindowVals w (r.y :: rest.map (fun x => x.y)) 0 = [v] := by
      unfold rollingWindowVals
      rw [List.take_succ_cons, List.take_zero, Nat.sub_eq_zero_of_le hw,
        List.drop_zero]
      simp [hv]
    simp only [List.getElem?_cons_zero, Option.map_some, defaultRollingAggs,
      List.flatMap_cons, List.flatMap_nil, List.append_nil, List.map_cons,
      List.map_nil, rollingAggAt, hwin]
    norm_num [hwin, List.min?_cons', List.max?_cons']
  · intro fr hfr
    unfold create_rolling_features
    rw [List.mem_flatMap]
    exact ⟨g, hg, by rw [hblock]; exact hfr⟩

/-- Witness for C5 (amended) at the concrete series, window 7, group A. -/
theorem rolling_first_row_spec_witness :
    (0 < 7 ∧ "A" ∈ groupsOf exSeries ∧
      (sortSeries exSeries).filter (fun x => x.group = "A") =
        { group := "A", ds := 0, y := some 1 } ::
          [{ group := "A", ds := 1, y := some 2 }] ∧
      ({ group := "A", ds := 0, y := some 1 } : SRow).y = some 1) ∧
    ((addRollingToBlock "y" [7] defaultRollingAggs
        ({ group := "A", ds := 0, y := some 1 } ::
          [{ group := "A", ds := 1, y := some 2 }]))[0]? =
      some { group := "A", ds := 0, y := some 1
             feats := [(rollingFeatName "y" 7 "mean", some 1),
                       (rollingFeatName "y" 7 "std", none),
                       (rollingFeatName "y" 7 "min", some 1),
                       (rollingFeatName "y" 7 "max", some 1)] } ∧
     (∀ fr ∈ addRollingToBlock "y" [7] defaultRollingAggs
         ({ group := "A", ds := 0, y := some 1 } ::
           [{ group := "A", ds := 1, y := some 2 }]),
       fr ∈ create_rolling_features exSeries "y" [7] defaultRollingAggs)) :=
  ⟨⟨by decide, by decide, by rfl, rfl⟩,
    rolling_first_row_spec exSeries "y" 7 (by decide) "A"
      { group := "A", ds := 0, y := some 1 }
      [{ group := "A", ds := 1, y := some 2 }]
      (by decide) (by rfl) 1 rfl⟩

/-- A consumption-series row for the cleaner: date `ds`, value `y`. -/
structure CRow where
  ds : ℤ
  y : Cell
deriving Repr, DecidableEq

/-- The outlier-detection methods `clean_consumo` accepts (any other string
raises, so the option space is exactly these two). -/
inductive OutlierMethod
| iqr
| zscore
deriving Repr, DecidableEq

/-- The missing-value fill methods `clean_consumo` accepts. -/
inductive FillMethod
| forward_fill
| backward_fill
| interpolate
| mean
deriving Repr, DecidableEq

/-- `df_clean.sort_values("ds")` (data_cleaner.py line 50). -/
def sortByDs (rows : List CRow) : List CRow :=
  rows.insertionSort (fun a b => a.ds ≤ b.ds)

/-- Step 1: `df_clean.loc[df_clean["y"] < 0, "y"] = 0` (NaN compares false,
so NaN cells are untouched). -/
def clampNegatives (rows : List CRow) : List CRow :=
  rows.map (fun r => match r.y with
    | some v => if v < 0 then { ds := r.ds, y := some 0 } else r
    | none => r)

/-- Step 2a: clamp below `min_value` when given. -/
def clampMin (min_value : Option ℚ) (rows : List CRow) : List CRow :=
  match min_value with
  | none => rows
  | some m => rows.map (fun r => match r.y with
    | some v => if v < m then { ds := r.ds, y := some m } else r
    | none => r)

/-- Step 2b: clamp above `max_value` when given. -/
def clampMax (max_value : Option ℚ) (rows : List CRow) : List CRow :=
  match max_value with
  | none => rows
  | some m => rows.map (fun r => match r.y with
    | some v => if m < v then { ds := r.ds, y := some m } else r
    | none => r)

/-- pandas `Series.quantile(q)` with the default linear interpolation over
the sorted non-NaN values; `none` when no valid value exists. -/
def quantile (vals : List ℚ) (q : ℚ) : Option ℚ :=
  let s := vals.insertionSort (fun a b => a ≤ b)
  match s.length with
  | 0 => none
  | m + 1 =>
    let h : ℚ := q * m
    let i : ℕ := (⌊h⌋).toNat
    let lo := s.getD i 0
    let hi := s.getD (min (i + 1) m) 0
    some (lo + (h - ⌊h⌋) * (hi - lo))

/-- IQR outlier mask (data_cleaner.py lines 132–139): flag values outside
`[Q1 − 1.5·IQR, Q3 + 1.5·IQR]`; NaN cells compare false and are not
flagged. -/
def iqrOutlierMask (ys : List Cell) : List Bool :=
  let vals := ys.filterMap id
  match quantile vals (1/4), quantile vals (3/4) with
  | some q1, some q3 =>
    let iqr := q3 - q1
    let lb := q1 - 3/2 * iqr
    let ub := q3 + 3/2 * iqr
    ys.map (fun c => match c with
      | some v => decide (v < lb) || decide (ub < v)
      | none => false)
  | _, _ => ys.map (fun _ => false)

/-- z-score outlier mask (lines 141–143): flag `|（x − μ)/σ| > 3`, written
squared (`(x − μ)² > 9·σ²`) to stay inside ℚ.  When σ is NaN (fewer than two
values, ddof = 1) or zero every z-score is NaN and nothing is flagged, as in
pandas. -/
def zscoreOutlierMask (ys : List Cell) : List Bool :=
  let vals := ys.filterMap id
  let n := vals.length
  if 2 ≤ n then
    let mu := vals.sum / n
    let vr := (vals.map (fun x => (x - mu) ^ 2)).sum / ((n : ℚ) - 1)
    if vr = 0 then ys.map (fun _ => false)
    else ys.map (fun c => match c with
      | some v => decide (9 * vr < (v - mu) ^ 2)
      | none => false)
  else ys.map (fun _ => false)

/-- `_detect_outliers` (lines 121–146) restricted to its two valid methods. -/
def outlierMask (method : OutlierMethod) (ys : List Cell) : List Bool :=
  match method with
  | .iqr => iqrOutlierMask ys
  | .zscore => zscoreOutlierMask ys

/-- Step 3: set the flagged cells to NaN
(`df_clean.loc[outliers_mask, "y"] = np.nan`). -/
def applyOutlierMask (rows : List CRow) (mask : List Bool) : List CRow :=
  (rows.zip mask).map (fun p =>
    if p.2 then { ds := p.1.ds, y := none } else p.1)

/-- Forward fill with an explicit carried value. -/
def ffillAux (carry : Cell) : List CRow → List CRow
  | [] => []
  | r :: rest =>
    match r.y with
    | some v => r :: ffillAux (some v) rest
    | none => { ds := r.ds, y := carry } :: ffillAux carry rest

/-- `Series.ffill()`. -/
def ffill (rows : List CRow) : List CRow := ffillAux none rows

/-- `Series.bfill()` — a forward fill over the reversed series. -/
def bfill (rows : List CRow) : List CRow := (ffillAux none rows.reverse).reverse

/-- One cell of `Series.interpolate(method="linear")` (position-based, the
pandas default): an interior NaN becomes the linear interpolation between
the nearest valid neighbours; a trailing NaN extends the last valid value
(pandas' forward limit direction); a leading NaN stays NaN. -/
def interpCell (ys : List Cell) (i : ℕ) : Cell :=
  match ys[i]? with
  | some (some v) => some v
  | _ =>
    match ((List.range i).filterMap
        (fun j => (ys[j]?.bind id).map (fun v => (j, v)))).getLast?,
      (((List.range (ys.length - (i + 1))).map (fun t => i + 1 + t)).filterMap
        (fun j => (ys[j]?.bind id).map (fun v => (j, v)))).head? with
    | some jv1, some jv2 =>
      some (jv1.2 + ((i : ℚ) - jv1.1) * (jv2.2 - jv1.2) / ((jv2.1 : ℚ) - jv1.1))
    | some jv1, none => some jv1.2
    | _, _ => none

/-- `Series.interpolate(method="linear")` over the whole series. -/
def interpolateSeries (rows : List CRow) : List CRow :=
  let ys := rows.map (fun r => r.y)
  rows.mapIdx (fun i r => { ds := r.ds, y := interpCell ys i })

/-- `Series.fillna(series.mean())`; when every value is NaN the mean is NaN
and nothing is filled. -/
def meanFill (rows : List CRow) : List CRow :=
  let vals := (rows.map (fun r => r.y)).filterMap id
  if vals = [] then rows
  else rows.map (fun r => match r.y with
    | some _ => r
    | none => { ds := r.ds, y := some (vals.sum / vals.length) })

/-- `_fill_missing_values` (data_cleaner.py lines 149–189) restricted to its
four valid methods, each followed by its edge fills exactly as in the
source. -/
def fill_missing_values (method : FillMethod) (rows : List CRow) : List CRow :=
  match method with
  | .forward_fill => bfill (ffill rows)
  | .backward_fill => ffill (bfill rows)
  | .interpolate => bfill (ffill (interpolateSeries rows))
  | .mean => meanFill rows

/-- Drop duplicate dates keeping the first occurrence, with an explicit
seen-set accumulator (`drop_duplicates(subset=["ds"], keep="first")`). -/
def dropDupDsAux (seen : List ℤ) : List CRow → List CRow
  | [] => []
  | r :: rest =>
    if r.ds ∈ seen then dropDupDsAux seen rest
    else r :: dropDupDsAux (r.ds :: seen) rest

/-- Step 6 of the cleaner. -/
def dropDupDs (rows : List CRow) : List CRow := dropDupDsAux [] rows

/-- Embedding of `clean_consumo` (src/src/data_cleaning/data_cleaner.py,
lines 13–118): sort by date, zero the negatives, clamp to the envelope,
blank the detected outliers, fill the missing values when requested, drop
any row still missing, and drop duplicate dates keeping the first. -/
def clean_consumo (rows : List CRow)
    (remove_outliers : Bool := true) (outlier_method : OutlierMethod := .iqr)
    (fill_missing : Bool := true) (fill_method : FillMethod := .forward_fill)
    (min_value : Option ℚ := none) (max_value : Option ℚ := none)
    (remove_negative : Bool := true) : List CRow :=
  let s0 := sortByDs rows
  let s1 := if remove_negative then clampNegatives s0 else s0
  let s2 := clampMin min_value s1
  let s3 := clampMax max_value s2
  let s4 := if remove_outliers then
      applyOutlierMask s3 (outlierMask outlier_method (s3.map (fun r => r.y)))
    else s3
  let missing_before := (s4.filter (fun r => r.y.isNone)).length
  let s5 := if fill_missing = true ∧ 0 < missing_before then
      fill_missing_values fill_method s4
    else s4
  let s6 := if s5.any (fun r => r.y.isNone) then s5.filter (fun r => r.y.isSome)
    else s5
  dropDupDs s6

/-- Deduplication only keeps rows of the input. -/
theorem dropDupDsAux_subset (seen : List ℤ) (l : List CRow) :
    ∀ r ∈ dropDupDsAux seen l, r ∈ l := by
  induction l generalizing seen with
  | nil => intro r hr; exact absurd hr (List.not_mem_nil r)
  | cons a l ih =>
    intro r hr
    unfold dropDupDsAux at hr
    split at hr
    · exact List.mem_cons_of_mem a (ih seen r hr)
    · rcases List.mem_cons.mp hr with h | h
      · exact h ▸ List.mem_cons_self a l
      · exact List.mem_cons_of_mem a (ih _ r h)

/-- Deduplication does not lengthen the series. -/
theorem dropDupDsAux_length (seen : List ℤ) (l : List CRow) :
    (dropDupDsAux seen l).length ≤ l.length := by
  induction l generalizing seen with
  | nil => exact Nat.le_refl 0
  | cons a l ih =>
    unfold dropDupDsAux
    split
    · exact Nat.le_succ_of_le (ih seen)
    · exact Nat.succ_le_succ (ih _)

/-- Forward filling preserves the length. -/
theorem ffillAux_length (c : Cell) (l : List CRow) :
    (ffillAux c l).length = l.length := by
  induction l generalizing c with
  | nil => rfl
  | cons a l ih =>
    unfold ffillAux
    split <;> simp [ih]

/-- Each fill method preserves the length. -/
theorem fill_missing_values_length (m : FillMethod) (l : List CRow) :
    (fill_missing_values m l).length = l.length := by
  cases m <;>
    simp [fill_missing_values, bfill, ffill, ffillAux_length, meanFill,
      interpolateSeries]
  split <;> simp

/-- The outlier-mask application does not lengthen the series. -/
theorem applyOutlierMask_length (l : List CRow) (mask : List Bool) :
    (applyOutlierMask l mask).length ≤ l.length := by
  unfold applyOutlierMask
  rw [List.length_map, List.length_zip]
  exact Nat.min_le_left _ _

/-- After step 5 (conditional dropna) no NaN cell remains. -/
theorem step6_no_missing (l : List CRow) :
    ∀ r ∈ (if l.any (fun r => r.y.isNone) then l.filter (fun r => r.y.isSome)
      else l), r.y.isSome = true := by
  split
  · intro r hr
    exact (List.mem_filter.mp hr).2
  · rename_i hany
    intro r hr
    rw [Bool.not_eq_true, List.any_eq_false] at hany
    have := hany r hr
    cases hy : r.y with
    | some v => rfl
    | none => rw [hy] at this; exact absurd rfl this

/-- Sorting preserves the length. -/
theorem sortByDs_length (l : List CRow) : (sortByDs l).length = l.length :=
  (List.perm_insertionSort _ l).length_eq

/-- Zeroing negatives preserves the length. -/
theorem clampNegatives_length (l : List CRow) :
    (clampNegatives l).length = l.length := List.length_map l _

/-- The lower clamp preserves the length. -/
theorem clampMin_length (m : Option ℚ) (l : List CRow) :
    (clampMin m l).length = l.length := by
  cases m <;> simp [clampMin]

/-- The upper clamp preserves the length. -/
theorem clampMax_length (m : Option ℚ) (l : List CRow) :
    (clampMax m l).length = l.length := by
  cases m <;> simp [clampMax]

/-- Step 1 (conditional) preserves the length. -/
theorem step1_length (b : Bool) (l : List CRow) :
    (if b then clampNegatives l else l).length = l.length := by
  split
  · exact clampNegatives_length l
  · rfl

/-- Step 3 (conditional outlier blanking) does not lengthen the series. -/
theorem step4_length (b : Bool) (mask : List Bool) (l : List CRow) :
    (if b then applyOutlierMask l mask else l).length ≤ l.length := by
  split
  · exact applyOutlierMask_length l mask
  · exact Nat.le_refl _

/-- Step 4 (conditional fill) preserves the length. -/
theorem step5_length (b : Bool) (fm : FillMethod) (mb : ℕ) (l : List CRow) :
    (if b = true ∧ 0 < mb then fill_missing_values fm l else l).length =
      l.length := by
  split
  · exact fill_missing_values_length fm l
  · rfl

/-- Step 5 (conditional dropna) does not lengthen the series. -/
theorem step6_length (l : List CRow) :
    (if l.any (fun r => r.y.isNone) then l.filter (fun r => r.y.isSome)
      else l).length ≤ l.length := by
  split
  · exact List.length_filter_le _ _
  · exact Nat.le_refl _

/-- C7: for every input and every combination of cleaning options,
`clean_consumo` returns a series with no missing `y` value, and never more
rows than it was given. -/
theorem clean_consumo_spec (rows : List CRow) (remove_outliers : Bool)
    (outlier_method : OutlierMethod) (fill_missing : Bool)
    (fill_method : FillMethod) (min_value max_value : Option ℚ)
    (remove_negative : Bool) :
    (∀ r ∈ clean_consumo rows remove_outliers outlier_method fill_missing
        fill_method min_value max_value remove_negative, r.y.isSome = true) ∧
    (clean_consumo rows remove_outliers outlier_method fill_missing
        fill_method min_value max_value remove_negative).length ≤
      rows.length := by
  unfold clean_consumo
  dsimp only
  constructor
  · intro r hr
    exact step6_no_missing _ r (dropDupDsAux_subset [] _ r hr)
  · refine Nat.le_trans (dropDupDsAux_length [] _) ?_
    refine Nat.le_trans (step6_length _) ?_
    rw [step5_length]
    refine Nat.le_trans (step4_length _ _ _) ?_
    rw [clampMax_length, clampMin_length, step1_length, sortByDs_length]
